import Mathlib

/-!
Verification development for the libparistraceroute repository.

Shallow embedding of
`src/libparistraceroute/libparistraceroute/algorithms/traceroute.c`
(the traceroute algorithm instance) and, modelled from the spec, the tag
allocation of the network engine whose header is `src/unnamed/part_000`
(`network.h`; the implementation file `network.c` is not in the sources).

Modelling conventions:
- C integers (`uint8_t ttl` aside, whose wrap is never exercised by the
  options the claims use) are modelled as `Nat`; `size_t` counters as `Nat`.
- NULL pointers are `Option.none`; dereferencing NULL, and `%` by zero,
  are modelled by the handler returning `none` (undefined behaviour).
- `pt_send_probe` / `probe_set_fields` always succeed (the `ttl` argument of
  `send_traceroute_probe` is already a `uint8_t`, so `I8("ttl", ttl)` cannot
  fail); `malloc` is modelled as succeeding.
- The handler's observable effects are collected in a `handler_result`:
  the new value of the `*pdata` slot, the `ttl` of each probe passed to
  `pt_send_probe` (in order), the events thrown to
  `loop->cur_instance->caller` (in order), the return value, the value
  `errno` was set to (if any), and the pointee of each `free` call
  (`none` for `free(NULL)`).
-/

namespace Libparistraceroute

/-- The `EINVAL` error number used by `traceroute.c`. -/
def EINVAL : Nat := 22

/-- A captured or forged packet; the handler only ever reads the `src_ip`
field of a reply (`probe_get_field(reply, "src_ip")->value.string`). -/
structure probe_t where
  src_ip : String
deriving DecidableEq, Repr

/-- The payload of a `PROBE_REPLY` event (`probe_reply_t`): the matched probe
and the captured reply. -/
structure probe_reply_t where
  probe : probe_t
  reply : probe_t
deriving DecidableEq, Repr

/-- Options of the traceroute algorithm (`traceroute_options_t`).
`dst_ip` is a `char *` in the source, hence possibly NULL. -/
structure traceroute_options_t where
  min_ttl : Nat
  max_ttl : Nat
  num_probes : Nat
  dst_ip : Option String
deriving DecidableEq, Repr

/-- Defaults from `traceroute_get_default_options` (traceroute.c:24-32). -/
def traceroute_get_default_options : traceroute_options_t :=
  { min_ttl := 1, max_ttl := 30, num_probes := 3, dst_ip := none }

/-- Per-instance state of the traceroute algorithm (`traceroute_data_t`),
fields as listed by the spec and as used in `traceroute_handler`. -/
structure traceroute_data_t where
  ttl : Nat
  num_sent_probes : Nat
  num_stars : Nat
  num_undiscovered : Nat
  destination_reached : Bool
deriving DecidableEq, Repr

/-- Events delivered to `traceroute_handler`. `algorithm_error` also stands
for the `default:` case of the switch, which shares its code path. -/
inductive event_in where
  | algorithm_init
  | probe_reply (data : probe_reply_t)
  | probe_timeout
  | algorithm_terminated
  | algorithm_error
deriving DecidableEq, Repr

/-- Events thrown by the handler to `loop->cur_instance->caller`.
Each carries the `event->data` of the event being handled; for
`PROBE_TIMEOUT` that payload is not a `probe_reply_t`, modelled `none`. -/
inductive event_out where
  | traceroute_probe_reply (data : probe_reply_t)
  | traceroute_destination_reached (data : probe_reply_t)
  | traceroute_max_ttl_reached (data : Option probe_reply_t)
deriving DecidableEq, Repr

/-- Observable outcome of one `traceroute_handler` call. -/
structure handler_result where
  pdata : Option traceroute_data_t
  sent : List Nat
  thrown : List event_out
  ret : Nat
  errno : Option Nat
  freed : List (Option traceroute_data_t)
deriving DecidableEq, Repr

/-- `destination_reached` (traceroute.c:54-56):
`!strcmp(probe_get_field(reply, "src_ip")->value.string, dst_ip)`. -/
def destination_reached (dst_ip : String) (reply : probe_t) : Bool :=
  reply.src_ip == dst_ip

/-- The duplicated "Send next probe packet" block (traceroute.c:159-171 and
194-206): if `data->ttl > options->max_ttl` throw `TRACEROUTE_MAX_TTL_REACHED`
to the caller, else send a probe with the current ttl and increment
`num_sent_probes`. -/
def send_next_probe_block (options : traceroute_options_t)
    (data : traceroute_data_t) (thrown : List event_out)
    (evdata : Option probe_reply_t) : handler_result :=
  if data.ttl > options.max_ttl then
    { pdata := some data, sent := [],
      thrown := thrown ++ [.traceroute_max_ttl_reached evdata],
      ret := 0, errno := none, freed := [] }
  else
    { pdata := some { data with num_sent_probes := data.num_sent_probes + 1 },
      sent := [data.ttl], thrown := thrown, ret := 0, errno := none,
      freed := [] }

/-- `traceroute_handler` (traceroute.c:89-237). Returns `none` when the C
code would dereference a NULL pointer (`*pdata` or `options` or
`options->dst_ip` being NULL where used) or compute `% 0`. -/
def traceroute_handler (opts : Option traceroute_options_t)
    (pdata : Option traceroute_data_t) (ev : event_in) :
    Option handler_result :=
  match ev with
  | .algorithm_init =>
    match opts with
    | none =>
      -- `!options` holds: errno = EINVAL; goto FAILURE
      some { pdata := pdata, sent := [], thrown := [], ret := EINVAL,
             errno := some EINVAL, freed := [] }
    | some options =>
      if options.min_ttl ≥ options.max_ttl then
        some { pdata := pdata, sent := [], thrown := [], ret := EINVAL,
               errno := some EINVAL, freed := [] }
      else
        -- malloc + memset(0) + `data->ttl = min_ttl`; send first probe;
        -- `(data->num_sent_probes)++`; `*pdata = data`
        some { pdata := some { ttl := options.min_ttl, num_sent_probes := 1,
                               num_stars := 0, num_undiscovered := 0,
                               destination_reached := false },
               sent := [options.min_ttl], thrown := [], ret := 0,
               errno := none, freed := [] }
  | .probe_reply d =>
    match opts, pdata with
    | some options, some data0 =>
      match options.dst_ip with
      | none => none
      | some dst =>
        if options.num_probes = 0 then none
        else
          -- `data->num_stars = 0; data->num_undiscovered = 0;`
          let data1 := { data0 with num_stars := 0, num_undiscovered := 0 }
          -- `i = (data->num_sent_probes % options->num_probes);`
          let i := data0.num_sent_probes % options.num_probes
          -- `data->destination_reached |= destination_reached(...);`
          let data2 := { data1 with destination_reached :=
            data1.destination_reached || destination_reached dst d.reply }
          if i = 0 then
            if data2.destination_reached then
              -- throw TRACEROUTE_DESTINATION_REACHED; break
              some { pdata := some data2, sent := [],
                     thrown := [.traceroute_probe_reply d,
                                .traceroute_destination_reached d],
                     ret := 0, errno := none, freed := [] }
            else
              -- `(data->ttl)++;` then the duplicated send block
              some (send_next_probe_block options
                { data2 with ttl := data2.ttl + 1 }
                [.traceroute_probe_reply d] (some d))
          else
            some (send_next_probe_block options data2
              [.traceroute_probe_reply d] (some d))
    | _, _ => none
  | .probe_timeout =>
    match opts, pdata with
    | some options, some data0 =>
      if options.num_probes = 0 then none
      else
        -- `i = (data->num_sent_probes % options->num_probes);`
        let i := data0.num_sent_probes % options.num_probes
        -- `++(data->num_stars);`
        let data1 := { data0 with num_stars := data0.num_stars + 1 }
        if i = 0 then
          -- `if (data->num_stars == options->num_probes) ++(num_undiscovered);`
          let data2 := if data1.num_stars = options.num_probes then
              { data1 with num_undiscovered := data1.num_undiscovered + 1 }
            else data1
          -- `if (data->num_undiscovered == 3) break;`
          if data2.num_undiscovered = 3 then
            some { pdata := some data2, sent := [], thrown := [], ret := 0,
                   errno := none, freed := [] }
          else
            -- `(data->ttl)++;` then the duplicated send block
            some (send_next_probe_block options
              { data2 with ttl := data2.ttl + 1 } [] none)
        else
          some (send_next_probe_block options data1 [] none)
    | _, _ => none
  | .algorithm_terminated =>
    -- `if (*pdata) free(data); *pdata = NULL;` — the local `data` was
    -- initialised to NULL (traceroute.c:92) and is never reassigned in this
    -- case, so `free` receives the NULL pointer, not the stored state.
    some { pdata := none, sent := [], thrown := [], ret := 0, errno := none,
           freed := if pdata.isSome then [none] else [] }
  | .algorithm_error =>
    -- goto FAILURE: return EINVAL, nothing else touched
    some { pdata := pdata, sent := [], thrown := [], ret := EINVAL,
           errno := none, freed := [] }

/-- Deliver a list of events to an instance in order, threading the `*pdata`
slot and collecting all probes sent and all events thrown to the caller.
`none` if any step hits undefined behaviour. -/
def traceroute_run (opts : Option traceroute_options_t) :
    Option traceroute_data_t → List event_in →
    Option (Option traceroute_data_t × List Nat × List event_out)
  | pd, [] => some (pd, [], [])
  | pd, ev :: evs =>
    match traceroute_handler opts pd ev with
    | none => none
    | some r =>
      match traceroute_run opts r.pdata evs with
      | none => none
      | some (pd2, s, t) => some (pd2, r.sent ++ s, r.thrown ++ t)

/-- Options of spec scenario 1 ("Happy path"): target `10.0.0.5`,
`min_ttl = 1`, `max_ttl = 5`, `num_probes = 1`. -/
def happy_options : traceroute_options_t :=
  { min_ttl := 1, max_ttl := 5, num_probes := 1, dst_ip := some "10.0.0.5" }

/-- A reply event payload whose reply packet has the given source address. -/
def hop_reply (ip : String) : probe_reply_t :=
  { probe := { src_ip := "0.0.0.0" }, reply := { src_ip := ip } }

/-- Event sequence of spec scenario 1: init, then in-order replies from
hops `10.0.0.1` .. `10.0.0.5`. -/
def happy_events : List event_in :=
  [.algorithm_init, .probe_reply (hop_reply "10.0.0.1"),
   .probe_reply (hop_reply "10.0.0.2"), .probe_reply (hop_reply "10.0.0.3"),
   .probe_reply (hop_reply "10.0.0.4"), .probe_reply (hop_reply "10.0.0.5")]

/-- Options used to exercise the gap-stop rule: `min_ttl = 1`,
`max_ttl = 30`, `num_probes = 1`, destination `10.0.0.9` (never replies). -/
def gap_options : traceroute_options_t :=
  { min_ttl := 1, max_ttl := 30, num_probes := 1, dst_ip := some "10.0.0.9" }

/-- Event sequence for the gap-stop test: init, one reply (from a hop that is
not the destination), then six consecutive timeouts — twice the
`3 * num_probes = 3` window the gap-stop property allows. -/
def gap_events : List event_in :=
  [.algorithm_init, .probe_reply (hop_reply "10.0.0.1"),
   .probe_timeout, .probe_timeout, .probe_timeout,
   .probe_timeout, .probe_timeout, .probe_timeout]

/-!
Network engine (tag allocation and the in-flight probe list).

Only the header `network.h` of this component is among the sources
(`src/unnamed/part_000`); the implementation `network.c` is not, so the
operations are modelled from the spec.
-/

/-- Largest value of the C type `uintmax_t` of the `last_tag` field
(64-bit). -/
def UINTMAX_MAX : Nat := 2 ^ 64 - 1

/-- The network engine state, restricted to the fields the tag-allocation
claims are about (`network.h` lines 36-44): `probes`, the probes in transit
from the oldest one to the youngest one, each represented by its identity
tag, and `last_tag`, the last probe ID used (`uintmax_t`). -/
structure network_t where
  probes : List Nat
  last_tag : Nat
deriving DecidableEq, Repr

/-- Modelled from the spec: `network_create` returns a fresh engine whose
in-flight list is empty and whose tag counter starts at zero
(`network.c` is absent from the sources; `network.h:63` declares it). -/
def network_create : network_t :=
  { probes := [], last_tag := 0 }

/-- Modelled from the spec: `network_get_available_tag` (declared at
`network.h:125`) draws the next value of the monotonic 64-bit counter
`last_tag`; "Exhaustion is a fatal engine error", modelled by `none`. -/
def network_get_available_tag (network : network_t) :
    Option (Nat × network_t) :=
  if network.last_tag < UINTMAX_MAX then
    some (network.last_tag + 1, { network with last_tag := network.last_tag + 1 })
  else
    none

/-- Modelled from the spec: the engine transitions that touch the in-flight
list (`network.c` is absent). `transmit` assigns a fresh tag and appends the
probe to the in-flight list (spec §4.6 `transmit()`); `reply_match` removes
a matched probe (`match_reply`); `timeout_drop` removes the oldest probe
(`network_process_timeout`, `network.h:118-122`). -/
inductive network_step : network_t → network_t → Prop
  | transmit (s s2 : network_t) (tag : Nat)
      (h : network_get_available_tag s = some (tag, s2)) :
      network_step s { s2 with probes := s2.probes ++ [tag] }
  | reply_match (s : network_t) (l1 l2 : List Nat) (tag : Nat)
      (h : s.probes = l1 ++ tag :: l2) :
      network_step s { s with probes := l1 ++ l2 }
  | timeout_drop (s : network_t) (tag : Nat) (rest : List Nat)
      (h : s.probes = tag :: rest) :
      network_step s { s with probes := rest }

/-- Engine states reachable from `network_create` by engine transitions. -/
inductive network_reachable : network_t → Prop
  | init : network_reachable network_create
  | step (s s2 : network_t) :
      network_reachable s → network_step s s2 → network_reachable s2

/-- Outcome of running spec scenario 1: five probes sent (ttl 1..5), five
`TRACEROUTE_PROBE_REPLY` events forwarded in order, then
`TRACEROUTE_DESTINATION_REACHED`. -/
def happy_result :
    Option (Option traceroute_data_t × List Nat × List event_out) :=
  some (some { ttl := 5, num_sent_probes := 5, num_stars := 0,
               num_undiscovered := 0, destination_reached := true },
        [1, 2, 3, 4, 5],
        [.traceroute_probe_reply (hop_reply "10.0.0.1"),
         .traceroute_probe_reply (hop_reply "10.0.0.2"),
         .traceroute_probe_reply (hop_reply "10.0.0.3"),
         .traceroute_probe_reply (hop_reply "10.0.0.4"),
         .traceroute_probe_reply (hop_reply "10.0.0.5"),
         .traceroute_destination_reached (hop_reply "10.0.0.5")])

/-- Behaviour of a `PROBE_REPLY` handled at a hop boundary: if
`destination_reached` holds after the `|=` update, the handler emits
`TRACEROUTE_DESTINATION_REACHED` and sends no probe; otherwise the ttl is
incremented by one before the next probe is considered. -/
def reply_boundary_prop (data : traceroute_data_t) (d : probe_reply_t)
    (dst : String) (r : handler_result) : Prop :=
  ((data.destination_reached || destination_reached dst d.reply) = true →
     event_out.traceroute_destination_reached d ∈ r.thrown ∧ r.sent = [])
  ∧ ((data.destination_reached || destination_reached dst d.reply) = false →
     (∀ d2, r.pdata = some d2 → d2.ttl = data.ttl + 1)
     ∧ (r.sent = [] ∨ r.sent = [data.ttl + 1]))

/-- The ttl the "Send next probe packet" block works with: incremented by
one if the event fell on a hop boundary, unchanged otherwise. -/
def next_ttl (options : traceroute_options_t) (data : traceroute_data_t) :
    Nat :=
  if data.num_sent_probes % options.num_probes = 0 then data.ttl + 1
  else data.ttl

/-- Behaviour of the duplicated "Send next probe packet" block on an event
that does not stop the instance: past `max_ttl` the handler emits
`TRACEROUTE_MAX_TTL_REACHED` and sends nothing; otherwise it sends exactly
one probe with the current ttl and increments `num_sent_probes`. -/
def next_probe_prop (options : traceroute_options_t)
    (data : traceroute_data_t) (r : handler_result) : Prop :=
  (next_ttl options data > options.max_ttl →
     r.sent = [] ∧ ∃ p, event_out.traceroute_max_ttl_reached p ∈ r.thrown)
  ∧ (next_ttl options data ≤ options.max_ttl →
     r.sent = [next_ttl options data]
     ∧ ∃ d2, r.pdata = some d2
         ∧ d2.num_sent_probes = data.num_sent_probes + 1)

/-- The update law of the `PROBE_TIMEOUT` case: `num_stars` is incremented;
on a hop boundary `num_undiscovered` is incremented exactly when the new
`num_stars` equals `num_probes`, the handler stops (no probe, no event)
exactly when the new `num_undiscovered` equals the literal 3, and otherwise
the ttl is incremented by one. -/
def timeout_update_prop (options : traceroute_options_t)
    (data : traceroute_data_t) (r : handler_result) : Prop :=
  (∀ d2, r.pdata = some d2 → d2.num_stars = data.num_stars + 1)
  ∧ (data.num_sent_probes % options.num_probes = 0 →
      (∀ d2, r.pdata = some d2 → d2.num_undiscovered =
        (if data.num_stars + 1 = options.num_probes then
           data.num_undiscovered + 1 else data.num_undiscovered))
      ∧ ((r.sent = [] ∧ r.thrown = []) ↔
          (if data.num_stars + 1 = options.num_probes then
             data.num_undiscovered + 1 else data.num_undiscovered) = 3)
      ∧ ((if data.num_stars + 1 = options.num_probes then
            data.num_undiscovered + 1 else data.num_undiscovered) ≠ 3 →
          ∀ d2, r.pdata = some d2 → d2.ttl = data.ttl + 1))

/-- The update law of the `PROBE_REPLY` case: both star counters are reset
to zero, `TRACEROUTE_PROBE_REPLY` carrying the event's data is forwarded to
the caller, and `destination_reached` is set whenever the reply's `src_ip`
equals the `dst_ip` option. -/
def reply_update_prop (d : probe_reply_t)
    (dst : String) (r : handler_result) : Prop :=
  (∃ d2, r.pdata = some d2 ∧ d2.num_stars = 0 ∧ d2.num_undiscovered = 0
     ∧ (d.reply.src_ip = dst → d2.destination_reached = true))
  ∧ event_out.traceroute_probe_reply d ∈ r.thrown

/-- Every state the slot may hold has the `destination_reached` flag set. -/
def dest_mono (pd : Option traceroute_data_t) : Prop :=
  ∀ d, pd = some d → d.destination_reached = true

/-- The tag-allocation invariant: in-flight tags are pairwise distinct, a
freshly drawn tag is not in the in-flight list and strictly increases the
counter, and no engine transition decreases the counter. -/
def tag_invariant_prop (s : network_t) : Prop :=
  s.probes.Nodup
  ∧ (∀ tag s2, network_get_available_tag s = some (tag, s2) →
      tag ∉ s.probes ∧ s.last_tag < s2.last_tag)
  ∧ (∀ s2, network_step s s2 → s.last_tag ≤ s2.last_tag)

/-!
Theorems.
-/

/-- C2: for every options record with missing options or
`min_ttl >= max_ttl`, handling `ALGORITHM_INIT` fails with
`INVALID_ARGUMENT`: it returns `EINVAL`, sets `errno` to `EINVAL`,
transmits no probe, throws no event, and leaves the `*pdata` slot
unmodified. -/
theorem traceroute_c2_init_invalid (opts : Option traceroute_options_t)
    (pdata : Option traceroute_data_t)
    (h : opts = none ∨
      ∃ options, opts = some options ∧ options.min_ttl ≥ options.max_ttl) :
    traceroute_handler opts pdata .algorithm_init =
      some { pdata := pdata, sent := [], thrown := [], ret := EINVAL,
             errno := some EINVAL, freed := [] } := by
  rcases h with rfl | ⟨options, rfl, h2⟩
  · rfl
  · simp [traceroute_handler, h2]

/-- Witness for C2: `min_ttl = 10 ≥ max_ttl = 5`. -/
theorem traceroute_c2_witness :
    traceroute_handler
      (some { min_ttl := 10, max_ttl := 5, num_probes := 3, dst_ip := none })
      none .algorithm_init =
      some { pdata := none, sent := [], thrown := [], ret := EINVAL,
             errno := some EINVAL, freed := [] } :=
  traceroute_c2_init_invalid _ none (Or.inr ⟨_, rfl, by decide⟩)

/-- C7: on `ALGORITHM_INIT` with valid options (`min_ttl < max_ttl`) the
handler stores in `*pdata` a zero-initialised state whose ttl is `min_ttl`,
sends exactly one probe with that ttl, leaves `num_sent_probes` at 1, and
returns 0. -/
theorem traceroute_c7_init_valid (options : traceroute_options_t)
    (pdata : Option traceroute_data_t)
    (h : options.min_ttl < options.max_ttl) :
    traceroute_handler (some options) pdata .algorithm_init =
      some { pdata := some { ttl := options.min_ttl, num_sent_probes := 1,
                             num_stars := 0, num_undiscovered := 0,
                             destination_reached := false },
             sent := [options.min_ttl], thrown := [], ret := 0,
             errno := none, freed := [] } := by
  simp [traceroute_handler, Nat.not_le.mpr h]

/-- Witness for C7: the default options (`min_ttl 1 < max_ttl 30`). -/
theorem traceroute_c7_witness :
    traceroute_handler (some traceroute_get_default_options) none
      .algorithm_init =
      some { pdata := some { ttl := 1, num_sent_probes := 1, num_stars := 0,
                             num_undiscovered := 0,
                             destination_reached := false },
             sent := [1], thrown := [], ret := 0, errno := none,
             freed := [] } :=
  traceroute_c7_init_valid traceroute_get_default_options none (by decide)

/-- C1 fails on the code: the gap-stop rule never fires, because
`num_stars` is only reset by a reply (traceroute.c:129) and never at a hop
boundary, so `num_stars == num_probes` (traceroute.c:183) can hold at most
once between replies and `num_undiscovered` never exceeds 1. With
`num_probes = 1` the claim allows at most `3 * num_probes = 3` consecutive
timeouts after the last reply before the instance stops; here six
consecutive timeouts after the last reply each still send a probe (eight
probes in total, ttl 1..8), and the final state has
`num_undiscovered = 1`. -/
theorem traceroute_c1_gap_stop_never_fires :
    traceroute_run (some gap_options) none gap_events =
      some (some { ttl := 8, num_sent_probes := 8, num_stars := 6,
                   num_undiscovered := 1, destination_reached := false },
            [1, 2, 3, 4, 5, 6, 7, 8],
            [.traceroute_probe_reply (hop_reply "10.0.0.1")]) := by
  rfl

/-- C8 fails on the code: on `ALGORITHM_TERMINATED` with a state present in
`*pdata`, the handler does set `*pdata` to NULL and return 0, but it frees
the local variable `data` — still NULL, never reassigned in this case
(traceroute.c:92, 211) — instead of the stored state, so the state is
leaked, never released (`freed = [none]`, a `free(NULL)` no-op). -/
theorem traceroute_c8_terminated_leaks_state :
    traceroute_handler none
      (some { ttl := 1, num_sent_probes := 1, num_stars := 0,
              num_undiscovered := 0, destination_reached := false })
      .algorithm_terminated =
      some { pdata := none, sent := [], thrown := [], ret := 0,
             errno := none, freed := [none] } := by
  rfl

/-- C5: on every `PROBE_TIMEOUT` delivered to an initialised instance,
`num_stars` is incremented by one; on a hop boundary (`num_sent_probes`
divisible by `num_probes`), `num_undiscovered` is incremented exactly when
the incremented `num_stars` equals `num_probes`, the handler stops (sends
no probe and emits no event) exactly when `num_undiscovered` equals the
literal constant 3 regardless of `num_probes`, and otherwise the ttl is
incremented by one. -/
theorem traceroute_c5_timeout_step (options : traceroute_options_t)
    (data : traceroute_data_t) (r : handler_result)
    (hres : traceroute_handler (some options) (some data) .probe_timeout =
      some r) :
    timeout_update_prop options data r := by
  simp only [traceroute_handler] at hres
  unfold send_next_probe_block at hres
  repeat' split at hres
  all_goals try exact absurd hres (Option.noConfusion)
  all_goals
    (rw [Option.some.injEq] at hres
     subst hres
     simp_all [timeout_update_prop])

/-- Witness for C5: a boundary timeout with `num_probes = 1` after two
probes sent; `num_stars` becomes 1 = `num_probes`, so `num_undiscovered`
becomes 1, the handler does not stop, increments the ttl and sends. -/
theorem traceroute_c5_witness :
    timeout_update_prop gap_options
      { ttl := 2, num_sent_probes := 2, num_stars := 0,
        num_undiscovered := 0, destination_reached := false }
      { pdata := some { ttl := 3, num_sent_probes := 3, num_stars := 1,
                        num_undiscovered := 1,
                        destination_reached := false },
        sent := [3], thrown := [], ret := 0, errno := none, freed := [] } :=
  traceroute_c5_timeout_step gap_options _ _ rfl

/-- C6: on every `PROBE_REPLY` delivered to an initialised instance, both
star counters are reset to 0, a `TRACEROUTE_PROBE_REPLY` event carrying
the original event's data is thrown to the caller, and
`destination_reached` is set whenever the reply's `src_ip` field equals
the `dst_ip` option. -/
theorem traceroute_c6_reply_step (options : traceroute_options_t)
    (data : traceroute_data_t) (d : probe_reply_t) (dst : String)
    (r : handler_result)
    (hdst : options.dst_ip = some dst)
    (hres : traceroute_handler (some options) (some data)
      (.probe_reply d) = some r) :
    reply_update_prop d dst r := by
  simp only [traceroute_handler, hdst] at hres
  unfold send_next_probe_block at hres
  repeat' split at hres
  all_goals try exact absurd hres (Option.noConfusion)
  all_goals
    (rw [Option.some.injEq] at hres
     subst hres
     simp_all [reply_update_prop, destination_reached])

/-- Witness for C6: a reply from the destination at a hop boundary. -/
theorem traceroute_c6_witness :
    reply_update_prop (hop_reply "10.0.0.9") "10.0.0.9"
      { pdata := some { ttl := 3, num_sent_probes := 3, num_stars := 0,
                        num_undiscovered := 0,
                        destination_reached := true },
        sent := [],
        thrown := [.traceroute_probe_reply (hop_reply "10.0.0.9"),
                   .traceroute_destination_reached (hop_reply "10.0.0.9")],
        ret := 0, errno := none, freed := [] } :=
  traceroute_c6_reply_step gap_options
    { ttl := 3, num_sent_probes := 3, num_stars := 2, num_undiscovered := 0,
      destination_reached := false }
    (hop_reply "10.0.0.9") "10.0.0.9" _ rfl rfl

/-- C3: a `PROBE_REPLY` handled at a hop boundary with
`destination_reached` set (after the `|=` update) makes the handler emit
`TRACEROUTE_DESTINATION_REACHED` to the caller and send no further probe;
at a hop boundary without `destination_reached` the ttl is incremented by
one before the next probe is considered. In particular spec scenario 1
(`min_ttl = 1`, `max_ttl = 5`, `num_probes = 1`, in-order replies from
hops `10.0.0.1` .. `10.0.0.5`, hop 5 the destination) forwards exactly
five `TRACEROUTE_PROBE_REPLY` events and then emits
`TRACEROUTE_DESTINATION_REACHED`, sending five probes in total. -/
theorem traceroute_c3_reply_boundary (options : traceroute_options_t)
    (data : traceroute_data_t) (d : probe_reply_t) (dst : String)
    (r : handler_result)
    (hdst : options.dst_ip = some dst)
    (hb : data.num_sent_probes % options.num_probes = 0)
    (hres : traceroute_handler (some options) (some data)
      (.probe_reply d) = some r) :
    reply_boundary_prop data d dst r
    ∧ traceroute_run (some happy_options) none happy_events =
        happy_result := by
  refine ⟨?_, by rfl⟩
  simp only [traceroute_handler, hdst] at hres
  unfold send_next_probe_block at hres
  repeat' split at hres
  all_goals try exact absurd hres (Option.noConfusion)
  all_goals
    (rw [Option.some.injEq] at hres
     subst hres
     simp_all [reply_boundary_prop]
     try (intro h2
          simp_all))

/-- Witness for C3: the final reply of spec scenario 1. -/
theorem traceroute_c3_witness :
    reply_boundary_prop
      { ttl := 5, num_sent_probes := 5, num_stars := 0,
        num_undiscovered := 0, destination_reached := false }
      (hop_reply "10.0.0.5") "10.0.0.5"
      { pdata := some { ttl := 5, num_sent_probes := 5, num_stars := 0,
                        num_undiscovered := 0,
                        destination_reached := true },
        sent := [],
        thrown := [.traceroute_probe_reply (hop_reply "10.0.0.5"),
                   .traceroute_destination_reached (hop_reply "10.0.0.5")],
        ret := 0, errno := none, freed := [] }
    ∧ traceroute_run (some happy_options) none happy_events =
        happy_result :=
  traceroute_c3_reply_boundary happy_options
    { ttl := 5, num_sent_probes := 5, num_stars := 0, num_undiscovered := 0,
      destination_reached := false }
    (hop_reply "10.0.0.5") "10.0.0.5" _ rfl rfl rfl

/-- C4: after a `PROBE_REPLY` or `PROBE_TIMEOUT` that does not stop the
instance (no destination-reached break, no gap-stop break), if the
possibly incremented ttl exceeds `max_ttl` the handler throws
`TRACEROUTE_MAX_TTL_REACHED` to the caller and sends no probe; otherwise
it sends exactly one probe carrying the current ttl and increments
`num_sent_probes` by one. -/
theorem traceroute_c4_next_probe (options : traceroute_options_t)
    (data : traceroute_data_t) (d : probe_reply_t) (dst : String)
    (ev : event_in) (r : handler_result)
    (hdst : options.dst_ip = some dst)
    (hev : (ev = event_in.probe_reply d
        ∧ ¬(data.num_sent_probes % options.num_probes = 0
            ∧ (data.destination_reached
                || destination_reached dst d.reply) = true))
      ∨ (ev = event_in.probe_timeout
        ∧ ¬(data.num_sent_probes % options.num_probes = 0
            ∧ (if data.num_stars + 1 = options.num_probes then
                 data.num_undiscovered + 1
               else data.num_undiscovered) = 3)))
    (hres : traceroute_handler (some options) (some data) ev = some r) :
    next_probe_prop options data r := by
  rcases hev with ⟨rfl, hstop⟩ | ⟨rfl, hstop⟩
  · simp only [traceroute_handler, hdst] at hres
    unfold send_next_probe_block at hres
    repeat' split at hres
    all_goals try exact absurd hres (Option.noConfusion)
    all_goals
      (rw [Option.some.injEq] at hres
       subst hres
       simp_all [next_probe_prop, next_ttl, destination_reached])
  · simp only [traceroute_handler] at hres
    unfold send_next_probe_block at hres
    repeat' split at hres
    all_goals try exact absurd hres (Option.noConfusion)
    all_goals
      (rw [Option.some.injEq] at hres
       subst hres
       simp_all [next_probe_prop, next_ttl])

/-- Witness for C4: a non-boundary timeout with `num_probes = 3`; the ttl
stays at 2 and one probe with ttl 2 is sent. -/
theorem traceroute_c4_witness :
    next_probe_prop
      { min_ttl := 1, max_ttl := 30, num_probes := 3,
        dst_ip := some "10.0.0.9" }
      { ttl := 2, num_sent_probes := 4, num_stars := 0,
        num_undiscovered := 0, destination_reached := false }
      { pdata := some { ttl := 2, num_sent_probes := 5, num_stars := 1,
                        num_undiscovered := 0,
                        destination_reached := false },
        sent := [2], thrown := [], ret := 0, errno := none, freed := [] } :=
  traceroute_c4_next_probe
    { min_ttl := 1, max_ttl := 30, num_probes := 3,
      dst_ip := some "10.0.0.9" }
    { ttl := 2, num_sent_probes := 4, num_stars := 0, num_undiscovered := 0,
      destination_reached := false }
    (hop_reply "10.0.0.1") "10.0.0.9" .probe_timeout _ rfl
    (Or.inr ⟨rfl, by decide⟩) rfl

/-- One handler step never clears the `destination_reached` flag: the flag
is updated only by `|=` accumulation (traceroute.c:135) — except by
`ALGORITHM_INIT`, which installs a fresh zeroed state and is excluded
here. -/
theorem handler_dest_mono (opts : Option traceroute_options_t)
    (pd : Option traceroute_data_t) (ev : event_in) (r : handler_result)
    (hev : ev ≠ event_in.algorithm_init)
    (hres : traceroute_handler opts pd ev = some r)
    (h : dest_mono pd) : dest_mono r.pdata := by
  cases ev with
  | algorithm_init => exact absurd rfl hev
  | probe_reply d =>
    rcases opts with _ | options
    · exact absurd hres Option.noConfusion
    rcases pd with _ | data0
    · exact absurd hres Option.noConfusion
    have hdest := h data0 rfl
    rcases hq : options.dst_ip with _ | dst
    · simp only [traceroute_handler, hq] at hres
      exact absurd hres Option.noConfusion
    · simp only [traceroute_handler, hq] at hres
      unfold send_next_probe_block at hres
      repeat' split at hres
      all_goals try exact absurd hres Option.noConfusion
      all_goals
        (rw [Option.some.injEq] at hres
         subst hres
         intro d2 hd2
         rw [Option.some.injEq] at hd2
         subst hd2
         simp_all)
  | probe_timeout =>
    rcases opts with _ | options
    · exact absurd hres Option.noConfusion
    rcases pd with _ | data0
    · exact absurd hres Option.noConfusion
    have hdest := h data0 rfl
    simp only [traceroute_handler] at hres
    unfold send_next_probe_block at hres
    repeat' split at hres
    all_goals try exact absurd hres Option.noConfusion
    all_goals
      (rw [Option.some.injEq] at hres
       subst hres
       intro d2 hd2
       rw [Option.some.injEq] at hd2
       subst hd2
       simp_all)
  | algorithm_terminated =>
    simp only [traceroute_handler] at hres
    rw [Option.some.injEq] at hres
    subst hres
    intro d2 hd2
    exact absurd hd2 Option.noConfusion
  | algorithm_error =>
    simp only [traceroute_handler] at hres
    rw [Option.some.injEq] at hres
    subst hres
    exact h

/-- Along any run without `ALGORITHM_INIT` events, the `dest_mono`
invariant (every state in the slot has `destination_reached` set) is
preserved. -/
theorem run_dest_mono (opts : Option traceroute_options_t)
    (evs : List event_in) :
    ∀ pd, (∀ ev ∈ evs, ev ≠ event_in.algorithm_init) → dest_mono pd →
      ∀ pd2 s t, traceroute_run opts pd evs = some (pd2, s, t) →
      dest_mono pd2 := by
  induction evs with
  | nil =>
    intro pd _ hmono pd2 s t hrun
    simp only [traceroute_run, Option.some.injEq, Prod.mk.injEq] at hrun
    obtain ⟨rfl, -, -⟩ := hrun
    exact hmono
  | cons ev evs ih =>
    intro pd hno hmono pd2 s t hrun
    simp only [traceroute_run] at hrun
    split at hrun
    · exact absurd hrun Option.noConfusion
    · rename_i r hstep
      split at hrun
      · exact absurd hrun Option.noConfusion
      · rename_i pd3 s3 t3 hrest
        rw [Option.some.injEq, Prod.mk.injEq] at hrun
        obtain ⟨rfl, -⟩ := hrun
        exact ih r.pdata
          (fun e he => hno e (List.mem_cons_of_mem ev he))
          (handler_dest_mono opts pd ev r
            (hno ev (List.mem_cons_self ev evs)) hstep hmono)
          pd3 s3 t3 hrest

/-- C10: once the `destination_reached` flag of the instance state is set,
no later delivered event clears it — the handler updates the flag only by
bitwise-or accumulation (traceroute.c:135). `ALGORITHM_INIT`, which
installs a fresh zeroed state, is excluded from the sequence: the engine
delivers it only once, at instance creation. -/
theorem traceroute_c10_dest_monotone (opts : Option traceroute_options_t)
    (evs : List event_in)
    (hevs : ∀ ev ∈ evs, ev ≠ event_in.algorithm_init)
    (data : traceroute_data_t)
    (hset : data.destination_reached = true)
    (pd2 : Option traceroute_data_t) (s : List Nat) (t : List event_out)
    (hrun : traceroute_run opts (some data) evs = some (pd2, s, t))
    (d2 : traceroute_data_t) (hpd : pd2 = some d2) :
    d2.destination_reached = true := by
  have hmono : dest_mono (some data) := by
    intro x hx
    rw [Option.some.injEq] at hx
    subst hx
    exact hset
  exact run_dest_mono opts evs (some data) hevs hmono pd2 s t hrun d2 hpd

/-- Witness for C10: a timeout delivered after the destination was
reached leaves the flag set. -/
theorem traceroute_c10_witness :
    ({ ttl := 6, num_sent_probes := 6, num_stars := 1,
       num_undiscovered := 1, destination_reached := true } :
        traceroute_data_t).destination_reached = true :=
  traceroute_c10_dest_monotone (some gap_options) [.probe_timeout]
    (by decide)
    { ttl := 5, num_sent_probes := 5, num_stars := 0, num_undiscovered := 0,
      destination_reached := true }
    rfl
    (some { ttl := 6, num_sent_probes := 6, num_stars := 1,
            num_undiscovered := 1, destination_reached := true })
    [6] [] rfl _ rfl

/-- Along reachable engine states the in-flight tags are pairwise distinct
and bounded by the `last_tag` counter. -/
theorem network_reachable_invariant (s : network_t)
    (h : network_reachable s) :
    s.probes.Nodup ∧ ∀ t ∈ s.probes, t ≤ s.last_tag := by
  induction h with
  | init => simp [network_create]
  | step s1 s2 h1 hstep ih =>
    obtain ⟨hnd, hle⟩ := ih
    cases hstep with
    | transmit s3 tag htag =>
      unfold network_get_available_tag at htag
      split at htag
      · rw [Option.some.injEq, Prod.mk.injEq] at htag
        obtain ⟨rfl, rfl⟩ := htag
        constructor
        · rw [List.nodup_append]
          refine ⟨hnd, List.nodup_singleton _, ?_⟩
          intro a ha hb
          rw [List.mem_singleton] at hb
          subst hb
          have := hle _ ha
          omega
        · intro t ht
          rw [List.mem_append, List.mem_singleton] at ht
          rcases ht with ht | rfl
          · have := hle t ht
            simp only []
            omega
          · simp
      · exact absurd htag Option.noConfusion
    | reply_match l1 l2 tag hsp =>
      rw [hsp] at hnd
      constructor
      · exact List.Nodup.sublist
          (List.Sublist.append_left (List.sublist_cons_self tag l2) l1) hnd
      · intro t ht
        refine hle t ?_
        rw [hsp, List.mem_append, List.mem_cons]
        rw [List.mem_append] at ht
        tauto
    | timeout_drop tag rest hsp =>
      rw [hsp] at hnd
      constructor
      · exact List.Nodup.of_cons hnd
      · intro t ht
        refine hle t ?_
        rw [hsp, List.mem_cons]
        tauto

/-- C9: probe identity tags are drawn from the single monotonically
increasing 64-bit counter `last_tag` held on the engine instance: in every
reachable engine state the in-flight probes carry pairwise distinct tags,
a freshly drawn tag is never currently in the in-flight list and strictly
increases the counter, and no engine transition decreases the counter.
(`network.c` is absent from the sources; the engine operations are
modelled from the spec, see `network_get_available_tag` and
`network_step`.) -/
theorem network_c9_tag_uniqueness (s : network_t)
    (h : network_reachable s) : tag_invariant_prop s := by
  obtain ⟨hnd, hle⟩ := network_reachable_invariant s h
  refine ⟨hnd, ?_, ?_⟩
  · intro tag s2 htag
    unfold network_get_available_tag at htag
    split at htag
    · rw [Option.some.injEq, Prod.mk.injEq] at htag
      obtain ⟨rfl, rfl⟩ := htag
      constructor
      · intro hmem
        have := hle _ hmem
        omega
      · simp
    · exact absurd htag Option.noConfusion
  · intro s2 hstep
    cases hstep with
    | transmit s3 tag htag =>
      unfold network_get_available_tag at htag
      split at htag
      · rw [Option.some.injEq, Prod.mk.injEq] at htag
        obtain ⟨rfl, rfl⟩ := htag
        simp
      · exact absurd htag Option.noConfusion
    | reply_match l1 l2 tag hsp => simp
    | timeout_drop tag rest hsp => simp

/-- Witness for C9: the engine state reached after two transmissions. -/
theorem network_c9_witness :
    tag_invariant_prop { probes := [1, 2], last_tag := 2 } :=
  network_c9_tag_uniqueness { probes := [1, 2], last_tag := 2 }
    (network_reachable.step { probes := [1], last_tag := 1 }
      { probes := [1, 2], last_tag := 2 }
      (network_reachable.step network_create
        { probes := [1], last_tag := 1 }
        network_reachable.init
        (network_step.transmit network_create
          { probes := [], last_tag := 1 } 1 rfl))
      (network_step.transmit { probes := [1], last_tag := 1 }
        { probes := [1], last_tag := 2 } 2 rfl))

end Libparistraceroute
